import Mathlib

/-!
Registry listing for an endpoint (`GET /endpoints/{id}/registries`).

A shallow embedding of `api/http/handler/endpoints/endpoint_registries_list.go`:
`endpointRegistriesList`, `isNamespaceAuthorized`, `filterRegistriesByNamespace`
and `hideRegistryFields`, followed by the properties proved about them.

Conventions of the embedding.
* A Go `map[K]V` is an association list; `GoMap.lookup` is the two-valued read
  `v, ok := m[k]`, and `Registry.accessesAt` is the one-valued read `m[k]`, which
  yields the zero value for a missing key.  A map field that the code sets to `nil`
  is an `Option` of such a list, `none` being the nil map.
* A Go `error` is a value of `Error`; a possibly-nil error is `Option Error`.
* Every call to an external collaborator (data store, client factory, remote client)
  and every call between the functions of the file is recorded in a list of `Call`s,
  so that "is not called" and "is called once" are statements about that list.
-/

namespace Portainer

/-! ## Data model (package `portainer`) -/

abbrev UserID := Nat
abbrev TeamID := Nat
abbrev EndpointID := Nat
abbrev RegistryID := Nat

/-- Go map as an association list; the first binding of a key is the one in force. -/
abbrev GoMap (κ ν : Type) := List (κ × ν)

/-- Two-valued map read `v, ok := m[k]`: `none` when `ok` is false. -/
def GoMap.lookup {κ ν : Type} [DecidableEq κ] (m : GoMap κ ν) (k : κ) : Option ν :=
  match m with
  | [] => none
  | (k', v) :: rest => if k' = k then some v else GoMap.lookup rest k

/-- Go errors: the sentinel `bolterrors.ErrObjectNotFound`, `errors.New` and `errors.Wrap`. -/
inductive Error where
  | ErrObjectNotFound : Error
  | New (message : String) : Error
  | Wrap (cause : Error) (message : String) : Error
  deriving DecidableEq, Repr

/-- The endpoint type tags of `portainer.EndpointType`. -/
inductive EndpointType where
  | DockerEnvironment
  | AgentOnDockerEnvironment
  | AzureEnvironment
  | EdgeAgentOnDockerEnvironment
  | KubernetesLocalEnvironment
  | AgentOnKubernetesEnvironment
  | EdgeAgentOnKubernetesEnvironment
  deriving DecidableEq, Repr

structure AccessPolicy where
  RoleID : Nat
  deriving DecidableEq, Repr

/-- Per-endpoint access policy of a registry (`portainer.RegistryAccessPolicies`). -/
structure RegistryAccessPolicies where
  UserAccessPolicies : GoMap UserID AccessPolicy
  TeamAccessPolicies : GoMap TeamID AccessPolicy
  Namespaces : List String
  deriving DecidableEq, Repr

/-- Zero value of `RegistryAccessPolicies`: what `m[k]` yields for a missing key. -/
def RegistryAccessPolicies.zero : RegistryAccessPolicies :=
  { UserAccessPolicies := [], TeamAccessPolicies := [], Namespaces := [] }

/-- Administrative connection settings of a registry; only its presence matters here
(`Type_` is the Go field `Type`). -/
structure RegistryManagementConfiguration where
  Type_ : Nat
  Username : String
  Password : String
  deriving DecidableEq, Repr

/-- Registry record (`portainer.Registry`): the fields the handler reads or writes, and
`URL` and `Username` standing for the fields it never touches. -/
structure Registry where
  ID : RegistryID
  Name : String
  URL : String
  Username : String
  Password : String
  ManagementConfiguration : Option RegistryManagementConfiguration
  RegistryAccesses : Option (GoMap EndpointID RegistryAccessPolicies)
  deriving DecidableEq, Repr

/-- The read `registry.RegistryAccesses[endpointId]`: the zero value when the map is nil
or has no entry for the endpoint. -/
def Registry.accessesAt (registry : Registry) (endpointId : EndpointID) : RegistryAccessPolicies :=
  match registry.RegistryAccesses with
  | none => RegistryAccessPolicies.zero
  | some m => (GoMap.lookup m endpointId).getD RegistryAccessPolicies.zero

structure Endpoint where
  ID : EndpointID
  Type_ : EndpointType
  deriving DecidableEq, Repr

structure TeamMembership where
  ID : Nat
  UserID : UserID
  TeamID : TeamID
  Role : Nat
  deriving DecidableEq, Repr

structure User where
  ID : UserID
  Role : Nat
  deriving DecidableEq, Repr

/-- Namespace policy fetched from the cluster (`portainer.K8sNamespaceAccessPolicy`). -/
structure K8sNamespaceAccessPolicy where
  UserAccessPolicies : GoMap UserID AccessPolicy
  TeamAccessPolicies : GoMap TeamID AccessPolicy
  deriving DecidableEq, Repr

/-! ## Collaborators -/

/-- Result of `security.RetrieveRestrictedRequestContext`. -/
structure RestrictedRequestContext where
  IsAdmin : Bool
  UserID : UserID
  UserMemberships : List TeamMembership
  deriving DecidableEq, Repr

/-- What the handler reads from the HTTP request: the security context attached to it,
the numeric route variable `id`, and the optional query parameter `namespace` (the empty
string when the parameter is not given; the handler drops the error of that read). -/
structure Request where
  securityContext : Except Error RestrictedRequestContext
  routeId : Except Error Nat
  namespaceParam : String

/-- Remote client of one cluster (`portainer.KubeClient`). -/
structure KubeClient where
  GetNamespaceAccessPolicies : Except Error (GoMap String K8sNamespaceAccessPolicy)

structure DataStore where
  User : UserID → Except Error User
  Endpoint : EndpointID → Except Error Endpoint
  Registries : Except Error (List Registry)

structure ClientFactory where
  GetKubeClient : Endpoint → Except Error KubeClient

/-- The handler and the collaborators it holds. -/
structure Handler where
  DataStore : DataStore
  K8sClientFactory : ClientFactory

/-- The two functions of package `security` that the file calls; their bodies are not
part of the file, so the handler is stated for any pair of them. -/
structure SecurityPackage where
  AuthorizedAccess : UserID → List TeamMembership → GoMap UserID AccessPolicy →
    GoMap TeamID AccessPolicy → Bool
  FilterRegistries : List Registry → User → List TeamMembership → EndpointID → List Registry

/-- Modelled from the spec: the body of `security.AuthorizedAccess` (section 4.1): access
is granted when the user map has an entry for the user, or the team map has an entry for
the team of one of the memberships. -/
def AuthorizedAccess (userID : UserID) (teamMemberships : List TeamMembership)
    (userAccessPolicies : GoMap UserID AccessPolicy)
    (teamAccessPolicies : GoMap TeamID AccessPolicy) : Bool :=
  (GoMap.lookup userAccessPolicies userID).isSome ||
    teamMemberships.any (fun membership =>
      (GoMap.lookup teamAccessPolicies membership.TeamID).isSome)

/-- Modelled from the spec: the body of `security.FilterRegistries` (section 4.3, other
endpoint types): keep the registries that have an entry for the endpoint whose user and
team maps grant access, in input order. -/
def FilterRegistries (registries : List Registry) (user : User)
    (teamMemberships : List TeamMembership) (endpointID : EndpointID) : List Registry :=
  registries.filter (fun registry =>
    match registry.RegistryAccesses with
    | none => false
    | some m =>
      match GoMap.lookup m endpointID with
      | none => false
      | some policy =>
        AuthorizedAccess user.ID teamMemberships policy.UserAccessPolicies
          policy.TeamAccessPolicies)

/-- Package `security` with the bodies modelled from the spec. -/
def specSecurity : SecurityPackage :=
  { AuthorizedAccess := AuthorizedAccess, FilterRegistries := FilterRegistries }

/-- Calls made while serving a request, in the order they happen. -/
inductive Call where
  | User (id : UserID)
  | Endpoint (id : EndpointID)
  | Registries
  | isNamespaceAuthorized (ns : String)
  | GetKubeClient (endpoint : EndpointID)
  | GetNamespaceAccessPolicies
  | filterRegistriesByNamespace (ns : String)
  | FilterRegistries
  deriving DecidableEq, Repr

/-- Error value returned by a handler (`httperror.HandlerError`). -/
structure HandlerError where
  StatusCode : Nat
  Message : String
  Err : Error
  deriving DecidableEq, Repr

def StatusBadRequest : Nat := 400
def StatusForbidden : Nat := 403
def StatusNotFound : Nat := 404
def StatusInternalServerError : Nat := 500

/-- What a run of the handler produces: the calls it made, and either the error it
returned or the registry list it handed to `response.JSON`. -/
structure Outcome where
  calls : List Call
  result : Except HandlerError (List Registry)

/-! ## The functions of the file -/

/-- Source `hideRegistryFields`: clears the password and the management configuration,
and the access map when `hideAccesses` is set. -/
def hideRegistryFields (registry : Registry) (hideAccesses : Bool) : Registry :=
  let registry := { registry with Password := "" }
  let registry := { registry with ManagementConfiguration := none }
  if hideAccesses then { registry with RegistryAccesses := none } else registry

/-- Source `filterRegistriesByNamespace`: the two nested `range` loops, appending the
registry once for every entry of its namespace list that equals the namespace. -/
def filterRegistriesByNamespace (registries : List Registry) (endpointId : EndpointID)
    (ns : String) : List Registry :=
  registries.foldl
    (fun filteredRegistries registry =>
      (registry.accessesAt endpointId).Namespaces.foldl
        (fun filteredRegistries authorizedNamespace =>
          if authorizedNamespace = ns then filteredRegistries ++ [registry]
          else filteredRegistries)
        filteredRegistries)
    []

/-- Source `isNamespaceAuthorized`: the pair `(authorized, err)` it returns, with the
calls it made to the client factory and the remote client. -/
def isNamespaceAuthorized (security : SecurityPackage) (handler : Handler)
    (endpoint : Endpoint) (ns : String) (userId : UserID)
    (memberships : List TeamMembership) : List Call × (Bool × Option Error) :=
  if ns = "default" then
    ([], (true, none))
  else
    match handler.K8sClientFactory.GetKubeClient endpoint with
    | .error err =>
      ([Call.GetKubeClient endpoint.ID],
        (false, some (Error.Wrap err "unable to retrieve kubernetes client")))
    | .ok kcl =>
      match kcl.GetNamespaceAccessPolicies with
      | .error err =>
        ([Call.GetKubeClient endpoint.ID, Call.GetNamespaceAccessPolicies],
          (false, some (Error.Wrap err "unable to retrieve endpoint's namespaces policies")))
      | .ok accessPolicies =>
        match GoMap.lookup accessPolicies ns with
        | none =>
          ([Call.GetKubeClient endpoint.ID, Call.GetNamespaceAccessPolicies], (false, none))
        | some namespacePolicy =>
          ([Call.GetKubeClient endpoint.ID, Call.GetNamespaceAccessPolicies],
            (security.AuthorizedAccess userId memberships namespacePolicy.UserAccessPolicies
              namespacePolicy.TeamAccessPolicies, none))

/-- The test on line 46: the endpoint type is one of the three Kubernetes types. -/
def isKubernetesEndpoint (endpoint : Endpoint) : Bool :=
  endpoint.Type_ = EndpointType.KubernetesLocalEnvironment ||
  endpoint.Type_ = EndpointType.AgentOnKubernetesEnvironment ||
  endpoint.Type_ = EndpointType.EdgeAgentOnKubernetesEnvironment

/-- The closing loop of the handler: `hideRegistryFields` on every element. -/
def hideAll (registries : List Registry) (hideAccesses : Bool) : List Registry :=
  registries.map (fun registry => hideRegistryFields registry hideAccesses)

/-- Lines 46 to 70 of `endpointRegistriesList`: the part after the user, the endpoint and
the registries have been read. -/
def listFor (security : SecurityPackage) (handler : Handler) (ns : String)
    (securityContext : RestrictedRequestContext) (user : User) (endpoint : Endpoint)
    (registries : List Registry) : Outcome :=
  let isAdminOrEndpointAdmin := securityContext.IsAdmin
  if isKubernetesEndpoint endpoint then
    if !isAdminOrEndpointAdmin then
      let check := isNamespaceAuthorized security handler endpoint ns user.ID
        securityContext.UserMemberships
      match check.2 with
      | (_, some err) =>
        { calls := Call.isNamespaceAuthorized ns :: check.1,
          result := .error
            ⟨StatusNotFound, "Unable to check for namespace authorization", err⟩ }
      | (false, none) =>
        { calls := Call.isNamespaceAuthorized ns :: check.1,
          result := .error
            ⟨StatusForbidden, "User is not authorized to use namespace",
              Error.New "user is not authorized to use namespace"⟩ }
      | (true, none) =>
        { calls := Call.isNamespaceAuthorized ns :: check.1 ++
            [Call.filterRegistriesByNamespace ns],
          result := .ok
            (hideAll (filterRegistriesByNamespace registries endpoint.ID ns)
              (!isAdminOrEndpointAdmin)) }
    else
      { calls := [Call.filterRegistriesByNamespace ns],
        result := .ok
          (hideAll (filterRegistriesByNamespace registries endpoint.ID ns)
            (!isAdminOrEndpointAdmin)) }
  else if !isAdminOrEndpointAdmin then
    { calls := [Call.FilterRegistries],
      result := .ok
        (hideAll
          (security.FilterRegistries registries user securityContext.UserMemberships
            endpoint.ID)
          (!isAdminOrEndpointAdmin)) }
  else
    { calls := [], result := .ok (hideAll registries (!isAdminOrEndpointAdmin)) }

/-- Source `endpointRegistriesList`: lines 17 to 44 read the security context, the user,
the route variable, the endpoint and the registries, each failure ending the request;
the rest is `listFor`. -/
def endpointRegistriesList (security : SecurityPackage) (handler : Handler)
    (r : Request) : Outcome :=
  match r.securityContext with
  | .error err =>
    { calls := [],
      result := .error
        ⟨StatusInternalServerError, "Unable to retrieve info from request context", err⟩ }
  | .ok securityContext =>
    match handler.DataStore.User securityContext.UserID with
    | .error err =>
      { calls := [Call.User securityContext.UserID],
        result := .error
          ⟨StatusInternalServerError, "Unable to retrieve user from the database", err⟩ }
    | .ok user =>
      match r.routeId with
      | .error err =>
        { calls := [Call.User securityContext.UserID],
          result := .error
            ⟨StatusBadRequest, "Invalid endpoint identifier route variable", err⟩ }
      | .ok endpointID =>
        match handler.DataStore.Endpoint endpointID with
        | .error err =>
          { calls := [Call.User securityContext.UserID, Call.Endpoint endpointID],
            result := .error
              ⟨if err = Error.ErrObjectNotFound then StatusNotFound
                else StatusInternalServerError,
                "Unable to find an endpoint with the specified identifier inside the database",
                err⟩ }
        | .ok endpoint =>
          match handler.DataStore.Registries with
          | .error err =>
            { calls := [Call.User securityContext.UserID, Call.Endpoint endpointID,
                Call.Registries],
              result := .error
                ⟨StatusInternalServerError,
                  "Unable to retrieve registries from the database", err⟩ }
          | .ok registries =>
            let rest := listFor security handler r.namespaceParam securityContext user
              endpoint registries
            { calls := [Call.User securityContext.UserID, Call.Endpoint endpointID,
                Call.Registries] ++ rest.calls,
              result := rest.result }

/-- The request passes lines 17 to 44: the security context, the user, the route variable,
the endpoint and the registry list are all read without error, with these values. -/
def ReachesDispatch (handler : Handler) (r : Request) (securityContext : RestrictedRequestContext)
    (user : User) (endpoint : Endpoint) (registries : List Registry) : Prop :=
  r.securityContext = .ok securityContext ∧
  handler.DataStore.User securityContext.UserID = .ok user ∧
  (∃ endpointID, r.routeId = .ok endpointID ∧
    handler.DataStore.Endpoint endpointID = .ok endpoint) ∧
  handler.DataStore.Registries = .ok registries

/-! ## Sample data: the scenario of section 8 of the specification -/

/-- Registry 1 of the scenario: scoped to endpoint 5 with namespace `ns-a`. -/
def sampleRegistry1 : Registry :=
  { ID := 1, Name := "one", URL := "one.example.org", Username := "puller",
    Password := "s3cret",
    ManagementConfiguration := some { Type_ := 1, Username := "root", Password := "t0ken" },
    RegistryAccesses := some
      [(5, { UserAccessPolicies := [], TeamAccessPolicies := [], Namespaces := ["ns-a"] })] }

/-- Registry 2 of the scenario: an empty access map. -/
def sampleRegistry2 : Registry :=
  { ID := 2, Name := "two", URL := "two.example.org", Username := "puller",
    Password := "hunter2", ManagementConfiguration := none, RegistryAccesses := some [] }

/-- Registry whose namespace list for endpoint 5 names `ns-a` twice. -/
def sampleRegistryTwice : Registry :=
  { ID := 3, Name := "three", URL := "three.example.org", Username := "puller",
    Password := "s3cret", ManagementConfiguration := none,
    RegistryAccesses := some
      [(5, { UserAccessPolicies := [], TeamAccessPolicies := [],
             Namespaces := ["ns-a", "ns-a"] })] }

def sampleRegistries : List Registry := [sampleRegistry1, sampleRegistry2]

def sampleUser : User := { ID := 7, Role := 2 }

def sampleContext (isAdmin : Bool) : RestrictedRequestContext :=
  { IsAdmin := isAdmin, UserID := 7, UserMemberships := [] }

def sampleEndpoint (type : EndpointType) : Endpoint := { ID := 5, Type_ := type }

/-- Handler over a store holding `sampleUser`, one endpoint of the given type and
`sampleRegistries`, with the given behaviour of the client factory. -/
def sampleHandler (type : EndpointType) (client : Except Error KubeClient) : Handler :=
  { DataStore :=
      { User := fun _ => .ok sampleUser,
        Endpoint := fun _ => .ok (sampleEndpoint type),
        Registries := .ok sampleRegistries },
    K8sClientFactory := { GetKubeClient := fun _ => client } }

def sampleRequest (isAdmin : Bool) (ns : String) : Request :=
  { securityContext := .ok (sampleContext isAdmin), routeId := .ok 5, namespaceParam := ns }

/-- Cluster whose policy map has an entry for `ns-a` only, granting user 7. -/
def sampleClient : KubeClient :=
  { GetNamespaceAccessPolicies := .ok
      [("ns-a", { UserAccessPolicies := [(7, { RoleID := 0 })], TeamAccessPolicies := [] })] }

/-! ## Auxiliary facts -/

theorem inner_foldl_eq (registry : Registry) (ns : String) (namespaces : List String)
    (acc : List Registry) :
    namespaces.foldl
        (fun filteredRegistries authorizedNamespace =>
          if authorizedNamespace = ns then filteredRegistries ++ [registry]
          else filteredRegistries)
        acc
      = acc ++ List.replicate (namespaces.count ns) registry := by
  induction namespaces generalizing acc with
  | nil => simp
  | cons a rest ih =>
    simp only [List.foldl_cons, ih]
    by_cases h : a = ns
    · subst h
      simp [List.replicate_succ]
    · have h' : (a == ns) = false := by simpa using h
      simp [h, List.count_cons, h']

/-- The loops of `filterRegistriesByNamespace` in closed form: every registry is repeated
as many times as the namespace occurs in its namespace list for the endpoint. -/
theorem filterRegistriesByNamespace_eq_flatMap (registries : List Registry)
    (endpointId : EndpointID) (ns : String) :
    filterRegistriesByNamespace registries endpointId ns
      = registries.flatMap (fun registry =>
          List.replicate ((registry.accessesAt endpointId).Namespaces.count ns) registry) := by
  have key : ∀ (rs acc : List Registry),
      rs.foldl
        (fun filteredRegistries registry =>
          (registry.accessesAt endpointId).Namespaces.foldl
            (fun filteredRegistries authorizedNamespace =>
              if authorizedNamespace = ns then filteredRegistries ++ [registry]
              else filteredRegistries)
            filteredRegistries)
        acc
      = acc ++ rs.flatMap (fun registry =>
          List.replicate ((registry.accessesAt endpointId).Namespaces.count ns) registry) := by
    intro rs
    induction rs with
    | nil => intro acc; simp
    | cons r rest ih =>
      intro acc
      rw [List.foldl_cons, ih, inner_foldl_eq, List.flatMap_cons, List.append_assoc]
  simpa [filterRegistriesByNamespace] using key registries []

theorem mem_filterRegistriesByNamespace (registries : List Registry)
    (endpointId : EndpointID) (ns : String) (registry : Registry) :
    registry ∈ filterRegistriesByNamespace registries endpointId ns ↔
      registry ∈ registries ∧ ns ∈ (registry.accessesAt endpointId).Namespaces := by
  rw [filterRegistriesByNamespace_eq_flatMap, List.mem_flatMap]
  constructor
  · rintro ⟨a, ha, hmem⟩
    rw [List.mem_replicate] at hmem
    obtain ⟨hcount, rfl⟩ := hmem
    exact ⟨ha, List.count_pos_iff.mp (Nat.pos_of_ne_zero hcount)⟩
  · rintro ⟨hin, hns⟩
    refine ⟨registry, hin, ?_⟩
    rw [List.mem_replicate]
    exact ⟨Nat.pos_iff_ne_zero.mp (List.count_pos_iff.mpr hns), rfl⟩

/-- The one-valued read lists the namespace exactly when the map has an entry for the
endpoint whose namespace list contains it. -/
theorem mem_accessesAt_iff (registry : Registry) (endpointId : EndpointID) (ns : String) :
    ns ∈ (registry.accessesAt endpointId).Namespaces ↔
      ∃ m policy, registry.RegistryAccesses = some m ∧
        GoMap.lookup m endpointId = some policy ∧ ns ∈ policy.Namespaces := by
  unfold Registry.accessesAt
  cases hm : registry.RegistryAccesses with
  | none => simp [RegistryAccessPolicies.zero]
  | some m =>
    cases hl : GoMap.lookup m endpointId with
    | none => simp [hl, RegistryAccessPolicies.zero]
    | some policy => simp [hl]

theorem endpointRegistriesList_of_reaches (security : SecurityPackage) (handler : Handler)
    (r : Request) (securityContext : RestrictedRequestContext) (user : User)
    (endpoint : Endpoint) (registries : List Registry)
    (h : ReachesDispatch handler r securityContext user endpoint registries) :
    (endpointRegistriesList security handler r).result
        = (listFor security handler r.namespaceParam securityContext user endpoint
            registries).result ∧
    ∃ endpointID,
      (endpointRegistriesList security handler r).calls
        = [Call.User securityContext.UserID, Call.Endpoint endpointID, Call.Registries]
          ++ (listFor security handler r.namespaceParam securityContext user endpoint
            registries).calls := by
  obtain ⟨h1, h2, ⟨endpointID, h3, h4⟩, h5⟩ := h
  refine ⟨?_, endpointID, ?_⟩ <;> simp [endpointRegistriesList, h1, h2, h3, h4, h5]

theorem endpointRegistriesList_ok_reaches (security : SecurityPackage) (handler : Handler)
    (r : Request) (out : List Registry)
    (h : (endpointRegistriesList security handler r).result = .ok out) :
    ∃ securityContext user endpoint registries,
      ReachesDispatch handler r securityContext user endpoint registries ∧
      (listFor security handler r.namespaceParam securityContext user endpoint
        registries).result = .ok out := by
  unfold endpointRegistriesList at h
  split at h
  · simp at h
  · rename_i securityContext h1
    split at h
    · simp at h
    · rename_i user h2
      split at h
      · simp at h
      · rename_i endpointID h3
        split at h
        · simp at h
        · rename_i endpoint h4
          split at h
          · simp at h
          · rename_i registries h5
            exact ⟨securityContext, user, endpoint, registries,
              ⟨h1, h2, ⟨endpointID, h3, h4⟩, h5⟩, h⟩

theorem listFor_admin (security : SecurityPackage) (handler : Handler) (ns : String)
    (securityContext : RestrictedRequestContext) (user : User) (endpoint : Endpoint)
    (registries : List Registry) (hadmin : securityContext.IsAdmin = true) :
    (listFor security handler ns securityContext user endpoint registries).result
      = .ok (hideAll
          (if isKubernetesEndpoint endpoint then
            filterRegistriesByNamespace registries endpoint.ID ns
          else registries) false) := by
  unfold listFor
  by_cases hk : isKubernetesEndpoint endpoint = true <;> simp [hk, hadmin]

theorem listFor_ok (security : SecurityPackage) (handler : Handler) (ns : String)
    (securityContext : RestrictedRequestContext) (user : User) (endpoint : Endpoint)
    (registries out : List Registry)
    (h : (listFor security handler ns securityContext user endpoint registries).result
      = .ok out) :
    ∃ kept, out = hideAll kept (!securityContext.IsAdmin) := by
  unfold listFor at h
  dsimp only at h
  split at h
  · split at h
    · split at h
      · simp at h
      · simp at h
      · exact ⟨_, (Except.ok.inj h).symm⟩
    · exact ⟨_, (Except.ok.inj h).symm⟩
  · split at h
    · exact ⟨_, (Except.ok.inj h).symm⟩
    · exact ⟨_, (Except.ok.inj h).symm⟩

theorem mem_hideAll (registries : List Registry) (hideAccesses : Bool) (o : Registry) :
    o ∈ hideAll registries hideAccesses ↔
      ∃ registry ∈ registries, o = hideRegistryFields registry hideAccesses := by
  simp only [hideAll, List.mem_map]
  constructor
  · rintro ⟨a, ha, rfl⟩; exact ⟨a, ha, rfl⟩
  · rintro ⟨a, ha, rfl⟩; exact ⟨a, ha, rfl⟩

theorem hideRegistryFields_cleared (registry : Registry) (hideAccesses : Bool) :
    (hideRegistryFields registry hideAccesses).Password = "" ∧
    (hideRegistryFields registry hideAccesses).ManagementConfiguration = none := by
  cases hideAccesses <;> simp [hideRegistryFields]

theorem isKubernetesEndpoint_iff (endpoint : Endpoint) :
    isKubernetesEndpoint endpoint = true ↔
      (endpoint.Type_ = EndpointType.KubernetesLocalEnvironment ∨
        endpoint.Type_ = EndpointType.AgentOnKubernetesEnvironment ∨
        endpoint.Type_ = EndpointType.EdgeAgentOnKubernetesEnvironment) := by
  simp [isKubernetesEndpoint, or_assoc]

/-- On a Kubernetes endpoint, for a caller who is not an administrator, the handler
returns what the three outcomes of the namespace check dictate. -/
theorem listFor_kubernetes_nonadmin (security : SecurityPackage) (handler : Handler)
    (ns : String) (securityContext : RestrictedRequestContext) (user : User)
    (endpoint : Endpoint) (registries : List Registry)
    (hk : isKubernetesEndpoint endpoint = true) (hna : securityContext.IsAdmin = false) :
    (listFor security handler ns securityContext user endpoint registries).result
      = match (isNamespaceAuthorized security handler endpoint ns user.ID
          securityContext.UserMemberships).2 with
        | (_, some err) =>
          .error ⟨StatusNotFound, "Unable to check for namespace authorization", err⟩
        | (false, none) =>
          .error ⟨StatusForbidden, "User is not authorized to use namespace",
            Error.New "user is not authorized to use namespace"⟩
        | (true, none) =>
          .ok (hideAll (filterRegistriesByNamespace registries endpoint.ID ns) true) := by
  unfold listFor
  simp only [hk, hna, if_true, Bool.not_false]
  split <;> rfl

theorem GoMap.lookup_eq_none_iff {κ ν : Type} [DecidableEq κ] (m : GoMap κ ν) (k : κ) :
    GoMap.lookup m k = none ↔ ∀ v, (k, v) ∉ m := by
  induction m with
  | nil => simp [GoMap.lookup]
  | cons entry rest ih =>
    obtain ⟨k', v'⟩ := entry
    by_cases h : k' = k
    · subst h
      simp only [GoMap.lookup, if_true]
      constructor
      · intro hc; cases hc
      · intro hall; exact absurd (List.mem_cons_self _ _) (hall v')
    · simp only [GoMap.lookup, h, if_false, ih, List.mem_cons, Prod.mk.injEq, not_or]
      constructor
      · intro hall v; exact ⟨fun hc => h hc.1.symm, hall v⟩
      · intro hall v; exact (hall v).2

/-- The output of `filterRegistriesByNamespace` is the input read at a non-decreasing
list of positions. -/
theorem filterRegistriesByNamespace_positions (registries : List Registry)
    (endpointId : EndpointID) (ns : String) :
    ∃ positions : List Nat, positions.Pairwise (fun a b => a ≤ b) ∧
      positions.map (fun i => registries[i]?)
        = (filterRegistriesByNamespace registries endpointId ns).map some := by
  rw [filterRegistriesByNamespace_eq_flatMap]
  induction registries with
  | nil => exact ⟨[], List.Pairwise.nil, rfl⟩
  | cons registry rest ih =>
    obtain ⟨positions, hsorted, hread⟩ := ih
    refine ⟨List.replicate ((registry.accessesAt endpointId).Namespaces.count ns) 0
      ++ positions.map (fun i => i + 1), ?_, ?_⟩
    · rw [List.pairwise_append]
      refine ⟨List.pairwise_replicate.mpr (Or.inr (Nat.le_refl 0)), ?_, ?_⟩
      · rw [List.pairwise_map]
        exact hsorted.imp (fun h => Nat.succ_le_succ h)
      · intro a ha b _
        rw [(List.mem_replicate.mp ha).2]
        exact Nat.zero_le b
    · rw [List.flatMap_cons, List.map_append, List.map_append, List.map_replicate,
        List.map_replicate, List.map_map, ← hread]
      congr 1
      · simp
      · apply List.map_congr_left
        intro i _
        simp

/-! ## Administrators: which registries are listed (C1) -/

/-- C1, as stated, fails: for an administrator on a Kubernetes endpoint the list is still
filtered by namespace.  With the registries of the scenario stored, registry 1 is in the
store but the administrator's listing for namespace `ns-b` is empty, and the listing for
`ns-a` holds registry 1 only, so the result depends on the namespace. -/
theorem C1_admin_namespace_counterexample :
    sampleRegistry1 ∈ sampleRegistries ∧
    (endpointRegistriesList specSecurity
        (sampleHandler EndpointType.KubernetesLocalEnvironment (.ok sampleClient))
        (sampleRequest true "ns-b")).result = .ok [] ∧
    (endpointRegistriesList specSecurity
        (sampleHandler EndpointType.KubernetesLocalEnvironment (.ok sampleClient))
        (sampleRequest true "ns-a")).result
      = .ok [hideRegistryFields sampleRegistry1 false] := by
  refine ⟨by simp [sampleRegistries], ?_, ?_⟩
  · rfl
  · rfl

/-- C1, amended: for an administrator whose request reaches the dispatch on endpoint type,
the call succeeds, and a (redacted) registry is in the output exactly when it is the
redaction of a stored registry which, on a Kubernetes endpoint, has an entry for the
endpoint whose namespace list contains the requested namespace; on every other endpoint
type the output is the same for every namespace value. -/
theorem C1_admin_listing (security : SecurityPackage) (handler : Handler) (r : Request)
    (securityContext : RestrictedRequestContext) (user : User) (endpoint : Endpoint)
    (registries : List Registry)
    (hreach : ReachesDispatch handler r securityContext user endpoint registries)
    (hadmin : securityContext.IsAdmin = true) :
    ∃ out, (endpointRegistriesList security handler r).result = .ok out ∧
      (∀ o, o ∈ out ↔
        ∃ registry ∈ registries, o = hideRegistryFields registry false ∧
          (isKubernetesEndpoint endpoint = true →
            ∃ m policy, registry.RegistryAccesses = some m ∧
              GoMap.lookup m endpoint.ID = some policy ∧
              r.namespaceParam ∈ policy.Namespaces)) ∧
      (isKubernetesEndpoint endpoint = false →
        ∀ ns, (endpointRegistriesList security handler
          { r with namespaceParam := ns }).result = .ok out) := by
  have hres := (endpointRegistriesList_of_reaches security handler r securityContext user
    endpoint registries hreach).1
  rw [listFor_admin security handler _ securityContext user endpoint registries hadmin]
    at hres
  refine ⟨_, hres, ?_, ?_⟩
  · intro o
    rw [mem_hideAll]
    by_cases hk : isKubernetesEndpoint endpoint = true
    · simp only [hk, if_true, mem_filterRegistriesByNamespace, mem_accessesAt_iff]
      constructor
      · rintro ⟨registry, ⟨hin, hns⟩, rfl⟩
        exact ⟨registry, hin, rfl, fun _ => hns⟩
      · rintro ⟨registry, hin, rfl, hns⟩
        exact ⟨registry, ⟨hin, hns trivial⟩, rfl⟩
    · simp only [hk, if_false]
      constructor
      · rintro ⟨registry, hin, rfl⟩
        exact ⟨registry, hin, rfl, fun h => Bool.noConfusion h⟩
      · rintro ⟨registry, hin, rfl, _⟩
        exact ⟨registry, hin, rfl⟩
  · intro hk ns
    have hreach' : ReachesDispatch handler { r with namespaceParam := ns } securityContext
        user endpoint registries := hreach
    have hres' := (endpointRegistriesList_of_reaches security handler _ securityContext
      user endpoint registries hreach').1
    rw [listFor_admin security handler _ securityContext user endpoint registries hadmin]
      at hres'
    simpa [hk] using hres'

/-- Witness for C1, amended: the administrator of the scenario on a Kubernetes endpoint,
namespace `ns-a`. -/
theorem C1_admin_listing_witness :
    ReachesDispatch (sampleHandler EndpointType.KubernetesLocalEnvironment (.ok sampleClient))
      (sampleRequest true "ns-a") (sampleContext true) sampleUser
      (sampleEndpoint EndpointType.KubernetesLocalEnvironment) sampleRegistries ∧
    ∃ out, (endpointRegistriesList specSecurity
        (sampleHandler EndpointType.KubernetesLocalEnvironment (.ok sampleClient))
        (sampleRequest true "ns-a")).result = .ok out ∧
      (∀ o, o ∈ out ↔
        ∃ registry ∈ sampleRegistries, o = hideRegistryFields registry false ∧
          (isKubernetesEndpoint (sampleEndpoint EndpointType.KubernetesLocalEnvironment) = true →
            ∃ m policy, registry.RegistryAccesses = some m ∧
              GoMap.lookup m (sampleEndpoint EndpointType.KubernetesLocalEnvironment).ID
                = some policy ∧
              (sampleRequest true "ns-a").namespaceParam ∈ policy.Namespaces)) ∧
      (isKubernetesEndpoint (sampleEndpoint EndpointType.KubernetesLocalEnvironment) = false →
        ∀ ns, (endpointRegistriesList specSecurity
          (sampleHandler EndpointType.KubernetesLocalEnvironment (.ok sampleClient))
          { sampleRequest true "ns-a" with namespaceParam := ns }).result = .ok out) :=
  ⟨⟨rfl, rfl, ⟨5, rfl, rfl⟩, rfl⟩,
    C1_admin_listing specSecurity
      (sampleHandler EndpointType.KubernetesLocalEnvironment (.ok sampleClient))
      (sampleRequest true "ns-a") (sampleContext true) sampleUser
      (sampleEndpoint EndpointType.KubernetesLocalEnvironment) sampleRegistries
      ⟨rfl, rfl, ⟨5, rfl, rfl⟩, rfl⟩ rfl⟩

/-! ## Redaction of every returned registry (C2) -/

/-- C2: every registry in the list of a successful `endpointRegistriesList` call has an
empty `Password` and a nil `ManagementConfiguration`, whoever the caller is and whatever
the endpoint type. -/
theorem C2_returned_registries_redacted (security : SecurityPackage) (handler : Handler)
    (r : Request) (out : List Registry)
    (hok : (endpointRegistriesList security handler r).result = .ok out) :
    ∀ registry ∈ out, registry.Password = "" ∧ registry.ManagementConfiguration = none := by
  obtain ⟨securityContext, user, endpoint, registries, _, hlist⟩ :=
    endpointRegistriesList_ok_reaches security handler r out hok
  obtain ⟨kept, rfl⟩ := listFor_ok security handler _ securityContext user endpoint
    registries out hlist
  intro registry hmem
  obtain ⟨stored, _, rfl⟩ := (mem_hideAll kept _ registry).mp hmem
  exact hideRegistryFields_cleared stored _

/-- Witness for C2: the non-administrator of the scenario, namespace `ns-a`; the one
returned registry has no password and no management configuration. -/
theorem C2_returned_registries_redacted_witness :
    (endpointRegistriesList specSecurity
        (sampleHandler EndpointType.KubernetesLocalEnvironment (.ok sampleClient))
        (sampleRequest false "ns-a")).result
      = .ok [hideRegistryFields sampleRegistry1 true] ∧
    (hideRegistryFields sampleRegistry1 true).Password = "" ∧
    (hideRegistryFields sampleRegistry1 true).ManagementConfiguration = none :=
  ⟨rfl,
    C2_returned_registries_redacted specSecurity
      (sampleHandler EndpointType.KubernetesLocalEnvironment (.ok sampleClient))
      (sampleRequest false "ns-a") [hideRegistryFields sampleRegistry1 true] rfl
      (hideRegistryFields sampleRegistry1 true) (List.mem_singleton.mpr rfl)⟩

/-! ## The namespace check of a non-administrator (C3, C4) -/

/-- C3: for a caller who is not an administrator, on an endpoint of one of the three
Kubernetes types, when `isNamespaceAuthorized` returns `(false, nil)` the handler returns
a 403 error and no registry list. -/
theorem C3_unauthorized_namespace_forbidden (security : SecurityPackage) (handler : Handler)
    (r : Request) (securityContext : RestrictedRequestContext) (user : User)
    (endpoint : Endpoint) (registries : List Registry)
    (hreach : ReachesDispatch handler r securityContext user endpoint registries)
    (htype : endpoint.Type_ = EndpointType.KubernetesLocalEnvironment ∨
      endpoint.Type_ = EndpointType.AgentOnKubernetesEnvironment ∨
      endpoint.Type_ = EndpointType.EdgeAgentOnKubernetesEnvironment)
    (hna : securityContext.IsAdmin = false)
    (hcheck : (isNamespaceAuthorized security handler endpoint r.namespaceParam user.ID
      securityContext.UserMemberships).2 = (false, none)) :
    (endpointRegistriesList security handler r).result
        = .error ⟨403, "User is not authorized to use namespace",
            Error.New "user is not authorized to use namespace"⟩ ∧
    ∀ out, (endpointRegistriesList security handler r).result ≠ .ok out := by
  have hres := (endpointRegistriesList_of_reaches security handler r securityContext user
    endpoint registries hreach).1
  rw [listFor_kubernetes_nonadmin security handler _ securityContext user endpoint
    registries ((isKubernetesEndpoint_iff endpoint).mpr htype) hna, hcheck] at hres
  refine ⟨hres, ?_⟩
  intro out hout
  rw [hres] at hout
  cases hout

/-- Witness for C3: the cluster's policy map has an entry for `ns-a` only and the
non-administrator asks for `ns-b`. -/
theorem C3_unauthorized_namespace_forbidden_witness :
    (isNamespaceAuthorized specSecurity
        (sampleHandler EndpointType.AgentOnKubernetesEnvironment (.ok sampleClient))
        (sampleEndpoint EndpointType.AgentOnKubernetesEnvironment) "ns-b" 7 []).2
      = (false, none) ∧
    (endpointRegistriesList specSecurity
        (sampleHandler EndpointType.AgentOnKubernetesEnvironment (.ok sampleClient))
        (sampleRequest false "ns-b")).result
      = .error ⟨403, "User is not authorized to use namespace",
          Error.New "user is not authorized to use namespace"⟩ :=
  ⟨rfl,
    (C3_unauthorized_namespace_forbidden specSecurity
      (sampleHandler EndpointType.AgentOnKubernetesEnvironment (.ok sampleClient))
      (sampleRequest false "ns-b") (sampleContext false) sampleUser
      (sampleEndpoint EndpointType.AgentOnKubernetesEnvironment) sampleRegistries
      ⟨rfl, rfl, ⟨5, rfl, rfl⟩, rfl⟩ (Or.inr (Or.inl rfl)) rfl rfl).1⟩

/-- C4: with namespace `default`, `isNamespaceAuthorized` returns `(true, nil)` and makes
no call, whatever the endpoint, the user, the memberships, the client factory and the
remote client are; hence a caller who is not an administrator, on an endpoint of one of
the three Kubernetes types, passes the namespace check and gets the redacted listing for
`default`, and neither the client factory nor the remote client is called. -/
theorem C4_default_namespace_bypass (security : SecurityPackage) (handler : Handler)
    (endpoint : Endpoint) (userId : UserID) (memberships : List TeamMembership) :
    isNamespaceAuthorized security handler endpoint "default" userId memberships
        = ([], (true, none)) ∧
    ∀ (r : Request) (securityContext : RestrictedRequestContext) (user : User)
      (registries : List Registry),
      ReachesDispatch handler r securityContext user endpoint registries →
      (endpoint.Type_ = EndpointType.KubernetesLocalEnvironment ∨
        endpoint.Type_ = EndpointType.AgentOnKubernetesEnvironment ∨
        endpoint.Type_ = EndpointType.EdgeAgentOnKubernetesEnvironment) →
      securityContext.IsAdmin = false →
      r.namespaceParam = "default" →
      (endpointRegistriesList security handler r).result
          = .ok (hideAll (filterRegistriesByNamespace registries endpoint.ID "default") true) ∧
      Call.GetKubeClient endpoint.ID ∉ (endpointRegistriesList security handler r).calls ∧
      Call.GetNamespaceAccessPolicies ∉ (endpointRegistriesList security handler r).calls := by
  have hdefault : ∀ (uid : UserID) (ms : List TeamMembership),
      isNamespaceAuthorized security handler endpoint "default" uid ms
        = ([], (true, none)) := by
    intro uid ms
    simp [isNamespaceAuthorized]
  refine ⟨hdefault userId memberships, ?_⟩
  intro r securityContext user registries hreach htype hna hns
  have hk := (isKubernetesEndpoint_iff endpoint).mpr htype
  obtain ⟨hres, endpointID, hcalls⟩ := endpointRegistriesList_of_reaches security handler r
    securityContext user endpoint registries hreach
  rw [listFor_kubernetes_nonadmin security handler _ securityContext user endpoint
    registries hk hna, hns, hdefault] at hres
  have hlist : (listFor security handler r.namespaceParam securityContext user endpoint
      registries).calls
        = [Call.isNamespaceAuthorized "default", Call.filterRegistriesByNamespace "default"] := by
    unfold listFor
    simp [hk, hna, hns, hdefault]
  rw [hlist] at hcalls
  refine ⟨hres, ?_, ?_⟩ <;> simp [hcalls]

/-- Witness for C4: the client factory fails, and the non-administrator asking for
`default` on a Kubernetes endpoint still gets a (here empty) listing. -/
theorem C4_default_namespace_bypass_witness :
    ReachesDispatch
      (sampleHandler EndpointType.EdgeAgentOnKubernetesEnvironment
        (.error (Error.New "no agent")))
      (sampleRequest false "default") (sampleContext false) sampleUser
      (sampleEndpoint EndpointType.EdgeAgentOnKubernetesEnvironment) sampleRegistries ∧
    (endpointRegistriesList specSecurity
        (sampleHandler EndpointType.EdgeAgentOnKubernetesEnvironment
          (.error (Error.New "no agent")))
        (sampleRequest false "default")).result
      = .ok (hideAll (filterRegistriesByNamespace sampleRegistries 5 "default") true) :=
  ⟨⟨rfl, rfl, ⟨5, rfl, rfl⟩, rfl⟩,
    ((C4_default_namespace_bypass specSecurity
      (sampleHandler EndpointType.EdgeAgentOnKubernetesEnvironment
        (.error (Error.New "no agent")))
      (sampleEndpoint EndpointType.EdgeAgentOnKubernetesEnvironment) 7 []).2
      (sampleRequest false "default") (sampleContext false) sampleUser sampleRegistries
      ⟨rfl, rfl, ⟨5, rfl, rfl⟩, rfl⟩ (Or.inr (Or.inr rfl)) rfl rfl).1⟩

/-! ## Filtering by namespace (C5, C6, C8) -/

/-- C5 fails on the code: a registry whose namespace list for the endpoint names the
requested namespace twice is appended twice.  The input `[sampleRegistryTwice]` has no
repeated registry, the output is `[sampleRegistryTwice, sampleRegistryTwice]`. -/
theorem C5_repeated_namespace_entry_duplicates_registry :
    [sampleRegistryTwice].Nodup ∧
    filterRegistriesByNamespace [sampleRegistryTwice] 5 "ns-a"
      = [sampleRegistryTwice, sampleRegistryTwice] ∧
    ¬ (filterRegistriesByNamespace [sampleRegistryTwice] 5 "ns-a").Nodup := by
  have hout : filterRegistriesByNamespace [sampleRegistryTwice] 5 "ns-a"
      = [sampleRegistryTwice, sampleRegistryTwice] := rfl
  refine ⟨List.nodup_singleton _, hout, ?_⟩
  rw [hout]
  simp

/-- C6: a registry occurs in the output of `filterRegistriesByNamespace` exactly when it
occurs in the input and its access map has an entry for the endpoint whose namespace list
contains the namespace; on the scenario input, endpoint 5, namespace `ns-a` gives
registry 1 alone and namespace `ns-b` gives the empty list. -/
theorem C6_filter_membership :
    (∀ (registries : List Registry) (endpointId : EndpointID) (ns : String)
        (registry : Registry),
      registry ∈ filterRegistriesByNamespace registries endpointId ns ↔
        registry ∈ registries ∧
          ∃ m policy, registry.RegistryAccesses = some m ∧
            GoMap.lookup m endpointId = some policy ∧ ns ∈ policy.Namespaces) ∧
    filterRegistriesByNamespace [sampleRegistry1, sampleRegistry2] 5 "ns-a"
      = [sampleRegistry1] ∧
    filterRegistriesByNamespace [sampleRegistry1, sampleRegistry2] 5 "ns-b" = [] := by
  refine ⟨?_, rfl, rfl⟩
  intro registries endpointId ns registry
  rw [mem_filterRegistriesByNamespace, mem_accessesAt_iff]

/-- C8: the output of `filterRegistriesByNamespace` lists input elements at positions that
never decrease: there is a list of positions, sorted by `≤`, such that reading the input
at these positions in turn gives the output.  So when A comes before B in the output, A
is read at a position before, or equal to, that of B in the input. -/
theorem C8_filter_keeps_input_order (registries : List Registry) (endpointId : EndpointID)
    (ns : String) :
    ∃ positions : List Nat,
      positions.Pairwise (fun a b => a ≤ b) ∧
      positions.map (fun i => registries[i]?)
        = (filterRegistriesByNamespace registries endpointId ns).map some :=
  filterRegistriesByNamespace_positions registries endpointId ns

/-! ## The access map of returned registries (C7) -/

/-- C7: in the list of a successful call, every registry returned to an administrator is
a stored registry after `hideRegistryFields` without hiding, so its `RegistryAccesses` is
that of the stored registry; every registry returned to a caller who is not an
administrator has a nil `RegistryAccesses`. -/
theorem C7_registry_accesses_visibility (security : SecurityPackage) (handler : Handler)
    (r : Request) (securityContext : RestrictedRequestContext) (user : User)
    (endpoint : Endpoint) (registries out : List Registry)
    (hreach : ReachesDispatch handler r securityContext user endpoint registries)
    (hok : (endpointRegistriesList security handler r).result = .ok out) :
    (securityContext.IsAdmin = true →
      ∀ o ∈ out, ∃ stored ∈ registries,
        o = hideRegistryFields stored false ∧ o.ID = stored.ID ∧
        o.RegistryAccesses = stored.RegistryAccesses) ∧
    (securityContext.IsAdmin = false → ∀ o ∈ out, o.RegistryAccesses = none) := by
  have hres := (endpointRegistriesList_of_reaches security handler r securityContext user
    endpoint registries hreach).1
  rw [hok] at hres
  constructor
  · intro hadmin o ho
    rw [listFor_admin security handler _ securityContext user endpoint registries hadmin]
      at hres
    have hout := Except.ok.inj hres
    subst hout
    obtain ⟨stored, hstored, rfl⟩ := (mem_hideAll _ _ o).mp ho
    have hin : stored ∈ registries := by
      by_cases hk : isKubernetesEndpoint endpoint = true
      · simp only [hk, if_true] at hstored
        exact ((mem_filterRegistriesByNamespace _ _ _ _).mp hstored).1
      · simpa [hk] using hstored
    exact ⟨stored, hin, rfl, rfl, rfl⟩
  · intro hna o ho
    obtain ⟨kept, rfl⟩ := listFor_ok security handler _ securityContext user endpoint
      registries out hres.symm
    obtain ⟨stored, _, rfl⟩ := (mem_hideAll kept _ o).mp ho
    simp [hna, hideRegistryFields]

/-- Witness for C7: the administrator of the scenario on a Docker endpoint gets both
registries, redacted, with the stored access maps. -/
theorem C7_registry_accesses_visibility_witness :
    (endpointRegistriesList specSecurity
        (sampleHandler EndpointType.DockerEnvironment (.ok sampleClient))
        (sampleRequest true "")).result
      = .ok [hideRegistryFields sampleRegistry1 false, hideRegistryFields sampleRegistry2 false] ∧
    ((sampleContext true).IsAdmin = true →
      ∀ o ∈ [hideRegistryFields sampleRegistry1 false, hideRegistryFields sampleRegistry2 false],
        ∃ stored ∈ sampleRegistries,
          o = hideRegistryFields stored false ∧ o.ID = stored.ID ∧
          o.RegistryAccesses = stored.RegistryAccesses) :=
  ⟨rfl,
    (C7_registry_accesses_visibility specSecurity
      (sampleHandler EndpointType.DockerEnvironment (.ok sampleClient))
      (sampleRequest true "") (sampleContext true) sampleUser
      (sampleEndpoint EndpointType.DockerEnvironment) sampleRegistries
      [hideRegistryFields sampleRegistry1 false, hideRegistryFields sampleRegistry2 false]
      ⟨rfl, rfl, ⟨5, rfl, rfl⟩, rfl⟩ rfl).1⟩

/-! ## Outcomes of the namespace check (C9, C10) -/

/-- C9: for a namespace other than `default`, when the client factory returns a client,
the client returns the policy map, and the map has no entry for the namespace,
`isNamespaceAuthorized` returns `(false, nil)`. -/
theorem C9_missing_namespace_entry_not_authorized (security : SecurityPackage)
    (handler : Handler) (endpoint : Endpoint) (ns : String) (userId : UserID)
    (memberships : List TeamMembership) (kcl : KubeClient)
    (accessPolicies : GoMap String K8sNamespaceAccessPolicy)
    (hns : ns ≠ "default")
    (hclient : handler.K8sClientFactory.GetKubeClient endpoint = .ok kcl)
    (hfetch : kcl.GetNamespaceAccessPolicies = .ok accessPolicies)
    (hmissing : ∀ policy, (ns, policy) ∉ accessPolicies) :
    (isNamespaceAuthorized security handler endpoint ns userId memberships).2
      = (false, none) := by
  have hlookup := (GoMap.lookup_eq_none_iff accessPolicies ns).mpr hmissing
  simp [isNamespaceAuthorized, hns, hclient, hfetch, hlookup]

/-- Witness for C9: the sample cluster has an entry for `ns-a` only; the check for `ns-b`
returns `(false, nil)`. -/
theorem C9_missing_namespace_entry_not_authorized_witness :
    (isNamespaceAuthorized specSecurity
        (sampleHandler EndpointType.KubernetesLocalEnvironment (.ok sampleClient))
        (sampleEndpoint EndpointType.KubernetesLocalEnvironment) "ns-b" 7 []).2
      = (false, none) :=
  C9_missing_namespace_entry_not_authorized specSecurity
    (sampleHandler EndpointType.KubernetesLocalEnvironment (.ok sampleClient))
    (sampleEndpoint EndpointType.KubernetesLocalEnvironment) "ns-b" 7 [] sampleClient
    [("ns-a", { UserAccessPolicies := [(7, { RoleID := 0 })], TeamAccessPolicies := [] })]
    (by decide) rfl rfl (by simp)

/-- C10: for a namespace other than `default`, when the client factory fails, or returns a
client whose policy fetch fails, `isNamespaceAuthorized` returns `false` with a non-nil
error, having called the factory once and the fetch at most once; and for a caller who is
not an administrator, on an endpoint of one of the three Kubernetes types, the handler
then returns a 404 error and no registry list. -/
theorem C10_check_failure_not_found (security : SecurityPackage) (handler : Handler)
    (endpoint : Endpoint) (ns : String) (userId : UserID)
    (memberships : List TeamMembership)
    (hns : ns ≠ "default")
    (hfail : (∃ e, handler.K8sClientFactory.GetKubeClient endpoint = .error e) ∨
      (∃ kcl e, handler.K8sClientFactory.GetKubeClient endpoint = .ok kcl ∧
        kcl.GetNamespaceAccessPolicies = .error e)) :
    (∃ err, (isNamespaceAuthorized security handler endpoint ns userId memberships).2
      = (false, some err)) ∧
    ((isNamespaceAuthorized security handler endpoint ns userId memberships).1.count
      (Call.GetKubeClient endpoint.ID) = 1 ∧
     (isNamespaceAuthorized security handler endpoint ns userId memberships).1.count
      Call.GetNamespaceAccessPolicies ≤ 1) ∧
    ∀ (r : Request) (securityContext : RestrictedRequestContext) (user : User)
      (registries : List Registry),
      ReachesDispatch handler r securityContext user endpoint registries →
      (endpoint.Type_ = EndpointType.KubernetesLocalEnvironment ∨
        endpoint.Type_ = EndpointType.AgentOnKubernetesEnvironment ∨
        endpoint.Type_ = EndpointType.EdgeAgentOnKubernetesEnvironment) →
      securityContext.IsAdmin = false →
      r.namespaceParam = ns →
      (∃ err, (endpointRegistriesList security handler r).result
        = .error ⟨404, "Unable to check for namespace authorization", err⟩) ∧
      ∀ out, (endpointRegistriesList security handler r).result ≠ .ok out := by
  have hcheck : ∀ (uid : UserID) (ms : List TeamMembership),
      ∃ err calls, isNamespaceAuthorized security handler endpoint ns uid ms
          = (calls, (false, some err)) ∧
        calls.count (Call.GetKubeClient endpoint.ID) = 1 ∧
        calls.count Call.GetNamespaceAccessPolicies ≤ 1 := by
    intro uid ms
    rcases hfail with ⟨e, he⟩ | ⟨kcl, e, hk, he⟩
    · refine ⟨Error.Wrap e "unable to retrieve kubernetes client",
        [Call.GetKubeClient endpoint.ID], ?_, ?_, ?_⟩
      · simp [isNamespaceAuthorized, hns, he]
      · simp
      · simp
    · refine ⟨Error.Wrap e "unable to retrieve endpoint's namespaces policies",
        [Call.GetKubeClient endpoint.ID, Call.GetNamespaceAccessPolicies], ?_, ?_, ?_⟩
      · simp [isNamespaceAuthorized, hns, hk, he]
      · simp
      · simp
  obtain ⟨err, calls, heq, hc1, hc2⟩ := hcheck userId memberships
  refine ⟨⟨err, by rw [heq]⟩, ⟨by rw [heq]; exact hc1, by rw [heq]; exact hc2⟩, ?_⟩
  intro r securityContext user registries hreach htype hna hparam
  have hres := (endpointRegistriesList_of_reaches security handler r securityContext user
    endpoint registries hreach).1
  obtain ⟨err', calls', heq', _, _⟩ := hcheck user.ID securityContext.UserMemberships
  rw [listFor_kubernetes_nonadmin security handler _ securityContext user endpoint
    registries ((isKubernetesEndpoint_iff endpoint).mpr htype) hna, hparam, heq'] at hres
  refine ⟨⟨err', hres⟩, ?_⟩
  intro out hout
  rw [hres] at hout
  cases hout

/-- Witness for C10: the client factory fails for a non-administrator asking for `ns-a`
on a Kubernetes endpoint; the handler returns 404 with the wrapped error. -/
theorem C10_check_failure_not_found_witness :
    (isNamespaceAuthorized specSecurity
        (sampleHandler EndpointType.KubernetesLocalEnvironment (.error (Error.New "no agent")))
        (sampleEndpoint EndpointType.KubernetesLocalEnvironment) "ns-a" 7 [])
      = ([Call.GetKubeClient 5],
          (false, some (Error.Wrap (Error.New "no agent")
            "unable to retrieve kubernetes client"))) ∧
    ∃ err, (endpointRegistriesList specSecurity
        (sampleHandler EndpointType.KubernetesLocalEnvironment (.error (Error.New "no agent")))
        (sampleRequest false "ns-a")).result
      = .error ⟨404, "Unable to check for namespace authorization", err⟩ :=
  ⟨rfl,
    ((C10_check_failure_not_found specSecurity
      (sampleHandler EndpointType.KubernetesLocalEnvironment (.error (Error.New "no agent")))
      (sampleEndpoint EndpointType.KubernetesLocalEnvironment) "ns-a" 7 [] (by decide)
      (Or.inl ⟨Error.New "no agent", rfl⟩)).2.2
      (sampleRequest false "ns-a") (sampleContext false) sampleUser sampleRegistries
      ⟨rfl, rfl, ⟨5, rfl, rfl⟩, rfl⟩ (Or.inl rfl) rfl rfl).1⟩

/-! ## Delegation to the access policy evaluator (C11) -/

theorem GoMap.lookup_isSome_iff {κ ν : Type} [DecidableEq κ] (m : GoMap κ ν) (k : κ) :
    (GoMap.lookup m k).isSome = true ↔ ∃ v, (k, v) ∈ m := by
  rw [← Option.ne_none_iff_isSome, Ne, GoMap.lookup_eq_none_iff]
  push_neg
  rfl

/-- The evaluator modelled from the spec grants access exactly when the user map has an
entry for the user or the team map has an entry for the team of some membership. -/
theorem AuthorizedAccess_iff (userID : UserID) (teamMemberships : List TeamMembership)
    (userAccessPolicies : GoMap UserID AccessPolicy)
    (teamAccessPolicies : GoMap TeamID AccessPolicy) :
    AuthorizedAccess userID teamMemberships userAccessPolicies teamAccessPolicies = true ↔
      (∃ policy, (userID, policy) ∈ userAccessPolicies) ∨
      ∃ membership ∈ teamMemberships,
        ∃ policy, (membership.TeamID, policy) ∈ teamAccessPolicies := by
  simp only [AuthorizedAccess, Bool.or_eq_true, List.any_eq_true, GoMap.lookup_isSome_iff]

/-- C11: for a namespace other than `default`, when the client factory returns a client,
the client returns the policy map and the map has the entry `namespacePolicy` for the
namespace, `isNamespaceAuthorized` returns the value of `security.AuthorizedAccess` on the
user id, the memberships and the two maps of that entry, with a nil error; and with the
evaluator of the spec that value is true exactly when the user map has an entry for the
user id or the team map has an entry for the team id of some membership. -/
theorem C11_namespace_entry_delegates_to_evaluator (security : SecurityPackage)
    (handler : Handler) (endpoint : Endpoint) (ns : String) (userId : UserID)
    (memberships : List TeamMembership) (kcl : KubeClient)
    (accessPolicies : GoMap String K8sNamespaceAccessPolicy)
    (namespacePolicy : K8sNamespaceAccessPolicy)
    (hns : ns ≠ "default")
    (hclient : handler.K8sClientFactory.GetKubeClient endpoint = .ok kcl)
    (hfetch : kcl.GetNamespaceAccessPolicies = .ok accessPolicies)
    (hentry : GoMap.lookup accessPolicies ns = some namespacePolicy) :
    (isNamespaceAuthorized security handler endpoint ns userId memberships).2
        = (security.AuthorizedAccess userId memberships namespacePolicy.UserAccessPolicies
            namespacePolicy.TeamAccessPolicies, none) ∧
    (isNamespaceAuthorized specSecurity handler endpoint ns userId memberships).2.2 = none ∧
    ((isNamespaceAuthorized specSecurity handler endpoint ns userId memberships).2.1 = true ↔
      (∃ policy, (userId, policy) ∈ namespacePolicy.UserAccessPolicies) ∨
      ∃ membership ∈ memberships,
        ∃ policy, (membership.TeamID, policy) ∈ namespacePolicy.TeamAccessPolicies) := by
  have hrun : ∀ pkg : SecurityPackage,
      (isNamespaceAuthorized pkg handler endpoint ns userId memberships).2
        = (pkg.AuthorizedAccess userId memberships namespacePolicy.UserAccessPolicies
            namespacePolicy.TeamAccessPolicies, none) := by
    intro pkg
    simp [isNamespaceAuthorized, hns, hclient, hfetch, hentry]
  refine ⟨hrun security, ?_, ?_⟩
  · rw [hrun specSecurity]
  · rw [hrun specSecurity]
    exact AuthorizedAccess_iff userId memberships namespacePolicy.UserAccessPolicies
      namespacePolicy.TeamAccessPolicies

/-- Witness for C11: the sample cluster has an entry for `ns-a` whose user map names
user 7; the check for user 7 without memberships returns `(true, nil)`. -/
theorem C11_namespace_entry_delegates_to_evaluator_witness :
    (isNamespaceAuthorized specSecurity
        (sampleHandler EndpointType.KubernetesLocalEnvironment (.ok sampleClient))
        (sampleEndpoint EndpointType.KubernetesLocalEnvironment) "ns-a" 7 []).2
      = (AuthorizedAccess 7 [] [(7, { RoleID := 0 })] [], none) ∧
    AuthorizedAccess 7 [] [(7, { RoleID := 0 })] [] = true :=
  ⟨(C11_namespace_entry_delegates_to_evaluator specSecurity
      (sampleHandler EndpointType.KubernetesLocalEnvironment (.ok sampleClient))
      (sampleEndpoint EndpointType.KubernetesLocalEnvironment) "ns-a" 7 [] sampleClient
      [("ns-a", { UserAccessPolicies := [(7, { RoleID := 0 })], TeamAccessPolicies := [] })]
      { UserAccessPolicies := [(7, { RoleID := 0 })], TeamAccessPolicies := [] }
      (by decide) rfl rfl rfl).1,
    rfl⟩

/-! ## What redaction leaves alone (C12) and its algebra (C16) -/

/-- C12: for either value of `hideAccesses`, `hideRegistryFields` leaves `ID`, `Name` and
the other fields apart from `Password`, `ManagementConfiguration` and `RegistryAccesses`
as they were: the result is the input with the password emptied, the management
configuration nil, and the access map nil when `hideAccesses` is true and as it was when
`hideAccesses` is false. -/
theorem C12_hideRegistryFields_frame (registry : Registry) :
    (∀ hideAccesses : Bool,
      (hideRegistryFields registry hideAccesses).ID = registry.ID ∧
      (hideRegistryFields registry hideAccesses).Name = registry.Name ∧
      (hideRegistryFields registry hideAccesses).URL = registry.URL ∧
      (hideRegistryFields registry hideAccesses).Username = registry.Username ∧
      hideRegistryFields registry hideAccesses
        = { registry with
            Password := "", ManagementConfiguration := none,
            RegistryAccesses := if hideAccesses then none else registry.RegistryAccesses }) ∧
    (hideRegistryFields registry false).RegistryAccesses = registry.RegistryAccesses ∧
    (hideRegistryFields registry true).RegistryAccesses = none := by
  refine ⟨?_, rfl, rfl⟩
  intro hideAccesses
  cases hideAccesses <;> exact ⟨rfl, rfl, rfl, rfl, rfl⟩

/-- C16: `hideRegistryFields` with flag `b` after `hideRegistryFields` with flag `a` is
`hideRegistryFields` with flag `a || b`; in particular applying it twice with the same
flag is applying it once. -/
theorem C16_hideRegistryFields_compose (registry : Registry) (a b : Bool) :
    hideRegistryFields (hideRegistryFields registry a) b
        = hideRegistryFields registry (a || b) ∧
    hideRegistryFields (hideRegistryFields registry a) a = hideRegistryFields registry a := by
  cases a <;> cases b <;> exact ⟨rfl, rfl⟩

/-! ## Endpoint types without namespaces (C13) -/

/-- On an endpoint that is not of a Kubernetes type the handler filters with
`security.FilterRegistries` for a caller who is not an administrator and not at all for an
administrator; the namespace is not used. -/
theorem listFor_other (security : SecurityPackage) (handler : Handler) (ns : String)
    (securityContext : RestrictedRequestContext) (user : User) (endpoint : Endpoint)
    (registries : List Registry) (hk : isKubernetesEndpoint endpoint = false) :
    listFor security handler ns securityContext user endpoint registries
      = if securityContext.IsAdmin then
          { calls := [], result := .ok (hideAll registries false) }
        else
          { calls := [Call.FilterRegistries],
            result := .ok
              (hideAll
                (security.FilterRegistries registries user securityContext.UserMemberships
                  endpoint.ID) true) } := by
  unfold listFor
  cases hadmin : securityContext.IsAdmin <;> simp [hk]

theorem isKubernetesEndpoint_eq_false_iff (endpoint : Endpoint) :
    isKubernetesEndpoint endpoint = false ↔
      (endpoint.Type_ ≠ EndpointType.KubernetesLocalEnvironment ∧
        endpoint.Type_ ≠ EndpointType.AgentOnKubernetesEnvironment ∧
        endpoint.Type_ ≠ EndpointType.EdgeAgentOnKubernetesEnvironment) := by
  rw [← Bool.not_eq_true, isKubernetesEndpoint_iff]
  push_neg
  rfl

/-- C13: when the endpoint named by the request is found and its type is none of the three
Kubernetes types, the run records no call of `isNamespaceAuthorized` and none of
`filterRegistriesByNamespace`; replacing the namespace parameter by any other value gives
the same calls and the same result; and for an administrator whose request reaches the
dispatch the result is the stored list with `hideRegistryFields` (access maps kept)
applied to every element. -/
theorem C13_other_endpoint_types_ignore_namespace (security : SecurityPackage)
    (handler : Handler) (r : Request) (endpointID : EndpointID) (endpoint : Endpoint)
    (hroute : r.routeId = .ok endpointID)
    (hendpoint : handler.DataStore.Endpoint endpointID = .ok endpoint)
    (htype : endpoint.Type_ ≠ EndpointType.KubernetesLocalEnvironment ∧
      endpoint.Type_ ≠ EndpointType.AgentOnKubernetesEnvironment ∧
      endpoint.Type_ ≠ EndpointType.EdgeAgentOnKubernetesEnvironment) :
    (∀ ns, Call.isNamespaceAuthorized ns ∉ (endpointRegistriesList security handler r).calls ∧
      Call.filterRegistriesByNamespace ns ∉ (endpointRegistriesList security handler r).calls) ∧
    (∀ ns, endpointRegistriesList security handler { r with namespaceParam := ns }
      = endpointRegistriesList security handler r) ∧
    (∀ (securityContext : RestrictedRequestContext) (user : User) (registries : List Registry),
      r.securityContext = .ok securityContext →
      handler.DataStore.User securityContext.UserID = .ok user →
      handler.DataStore.Registries = .ok registries →
      securityContext.IsAdmin = true →
      (endpointRegistriesList security handler r).result
        = .ok (registries.map (fun registry => hideRegistryFields registry false))) := by
  have hk := (isKubernetesEndpoint_eq_false_iff endpoint).mpr htype
  refine ⟨?_, ?_, ?_⟩
  · intro ns
    unfold endpointRegistriesList
    cases hctx : r.securityContext with
    | error err => simp
    | ok securityContext =>
      cases huser : handler.DataStore.User securityContext.UserID with
      | error err => simp [huser]
      | ok user =>
        cases hregs : handler.DataStore.Registries with
        | error err => simp [huser, hroute, hendpoint]
        | ok registries =>
          cases hadmin : securityContext.IsAdmin <;>
            simp [huser, hroute, hendpoint, listFor_other, hk, hadmin]
  · intro ns
    unfold endpointRegistriesList
    cases hctx : r.securityContext with
    | error err => simp [hctx]
    | ok securityContext =>
      cases huser : handler.DataStore.User securityContext.UserID with
      | error err => simp [hctx, huser]
      | ok user =>
        cases hregs : handler.DataStore.Registries with
        | error err => simp [hctx, huser, hroute, hendpoint]
        | ok registries => simp [hctx, huser, hroute, hendpoint, listFor_other, hk]
  · intro securityContext user registries hctx huser hregs hadmin
    have hres := (endpointRegistriesList_of_reaches security handler r securityContext user
      endpoint registries ⟨hctx, huser, ⟨endpointID, hroute, hendpoint⟩, hregs⟩).1
    rw [listFor_other security handler _ securityContext user endpoint registries hk,
      hadmin] at hres
    simpa [hideAll] using hres

/-- Witness for C13: the administrator of the scenario on a Docker endpoint; the namespace
`ns-b` changes nothing and both stored registries come back redacted. -/
theorem C13_other_endpoint_types_ignore_namespace_witness :
    endpointRegistriesList specSecurity
        (sampleHandler EndpointType.DockerEnvironment (.ok sampleClient))
        { sampleRequest true "" with namespaceParam := "ns-b" }
      = endpointRegistriesList specSecurity
        (sampleHandler EndpointType.DockerEnvironment (.ok sampleClient))
        (sampleRequest true "") ∧
    (endpointRegistriesList specSecurity
        (sampleHandler EndpointType.DockerEnvironment (.ok sampleClient))
        (sampleRequest true "")).result
      = .ok (sampleRegistries.map (fun registry => hideRegistryFields registry false)) :=
  ⟨(C13_other_endpoint_types_ignore_namespace specSecurity
      (sampleHandler EndpointType.DockerEnvironment (.ok sampleClient))
      (sampleRequest true "") 5 (sampleEndpoint EndpointType.DockerEnvironment) rfl rfl
      (by decide)).2.1 "ns-b",
    (C13_other_endpoint_types_ignore_namespace specSecurity
      (sampleHandler EndpointType.DockerEnvironment (.ok sampleClient))
      (sampleRequest true "") 5 (sampleEndpoint EndpointType.DockerEnvironment) rfl rfl
      (by decide)).2.2 (sampleContext true) sampleUser sampleRegistries rfl rfl rfl rfl⟩

/-! ## How often a registry is listed (C14) -/

theorem count_flatMap_replicate (weight : Registry → Nat) (registries : List Registry)
    (registry : Registry) :
    (registries.flatMap (fun r => List.replicate (weight r) r)).count registry
      = registries.count registry * weight registry := by
  induction registries with
  | nil => simp
  | cons head rest ih =>
    rw [List.flatMap_cons, List.count_append, ih, List.count_replicate, List.count_cons]
    by_cases h : head = registry
    · subst h
      simp [Nat.add_mul, Nat.add_comm]
    · have h' : (head == registry) = false := by simpa using h
      simp [h']

theorem flatMap_replicate_sublist (weight : Registry → Nat) (registries : List Registry)
    (hweight : ∀ r ∈ registries, weight r ≤ 1) :
    (registries.flatMap (fun r => List.replicate (weight r) r)).Sublist registries := by
  induction registries with
  | nil => simp
  | cons head rest ih =>
    rw [List.flatMap_cons]
    have hhead : (List.replicate (weight head) head).Sublist [head] :=
      (List.replicate_sublist_replicate head).mpr (hweight head (List.mem_cons_self _ _))
    exact hhead.append (ih (fun r hr => hweight r (List.mem_cons_of_mem _ hr)))

/-- C14: `filterRegistriesByNamespace` repeats every element of the input as many times as
the namespace occurs in the namespace list that element has for the endpoint, in input
order; so a registry occurs in the output that many times for each of its occurrences in
the input, not at all when it has no entry for the endpoint, and, when no namespace list
for the endpoint has a repeated name, the output is a sublist of the input and is no
longer than it. -/
theorem C14_filter_multiplicity (registries : List Registry) (endpointId : EndpointID)
    (ns : String) :
    filterRegistriesByNamespace registries endpointId ns
        = registries.flatMap (fun registry =>
            List.replicate ((registry.accessesAt endpointId).Namespaces.count ns) registry) ∧
    (∀ registry,
      (filterRegistriesByNamespace registries endpointId ns).count registry
        = registries.count registry * (registry.accessesAt endpointId).Namespaces.count ns) ∧
    (∀ registry, registries.count registry = 1 →
      (filterRegistriesByNamespace registries endpointId ns).count registry
        = (registry.accessesAt endpointId).Namespaces.count ns) ∧
    (∀ registry,
      (registry.RegistryAccesses = none ∨
        ∃ m, registry.RegistryAccesses = some m ∧ GoMap.lookup m endpointId = none) →
      (filterRegistriesByNamespace registries endpointId ns).count registry = 0) ∧
    ((∀ registry ∈ registries, (registry.accessesAt endpointId).Namespaces.Nodup) →
      (filterRegistriesByNamespace registries endpointId ns).Sublist registries ∧
      (filterRegistriesByNamespace registries endpointId ns).length ≤ registries.length) := by
  have hform := filterRegistriesByNamespace_eq_flatMap registries endpointId ns
  have hcount : ∀ registry,
      (filterRegistriesByNamespace registries endpointId ns).count registry
        = registries.count registry
          * (registry.accessesAt endpointId).Namespaces.count ns := by
    intro registry
    rw [hform]
    exact count_flatMap_replicate
      (fun r => (r.accessesAt endpointId).Namespaces.count ns) registries registry
  refine ⟨hform, hcount, ?_, ?_, ?_⟩
  · intro registry hone
    rw [hcount, hone, Nat.one_mul]
  · intro registry hno
    have hempty : (registry.accessesAt endpointId).Namespaces = [] := by
      unfold Registry.accessesAt
      rcases hno with hnil | ⟨m, hm, hl⟩
      · simp [hnil, RegistryAccessPolicies.zero]
      · simp [hm, hl, RegistryAccessPolicies.zero]
    rw [hcount, hempty]
    simp
  · intro hnodup
    have hsub : (filterRegistriesByNamespace registries endpointId ns).Sublist registries := by
      rw [hform]
      exact flatMap_replicate_sublist
        (fun r => (r.accessesAt endpointId).Namespaces.count ns) registries
        (fun r hr => List.nodup_iff_count_le_one.mp (hnodup r hr) ns)
    exact ⟨hsub, hsub.length_le⟩

/-- Witness for C14: on the scenario input no namespace list has a repeated name, and the
listing for endpoint 5 and `ns-a` is a sublist of the input. -/
theorem C14_filter_multiplicity_witness :
    (∀ registry ∈ sampleRegistries, (registry.accessesAt 5).Namespaces.Nodup) ∧
    (filterRegistriesByNamespace sampleRegistries 5 "ns-a").Sublist sampleRegistries ∧
    (filterRegistriesByNamespace sampleRegistries 5 "ns-a").length ≤ sampleRegistries.length :=
  ⟨by decide,
    (C14_filter_multiplicity sampleRegistries 5 "ns-a").2.2.2.2 (by decide)⟩

/-! ## Administrator and authorized user on a Kubernetes endpoint (C15) -/

/-- C15: on an endpoint of one of the three Kubernetes types, with the same stored
registries and the same namespace, an administrator and a caller who is not an
administrator and for whom `isNamespaceAuthorized` returns `(true, nil)` both get the
namespace-filtered list after `hideRegistryFields`: the identifiers come in the same
sequence, and the second list is the first with every `RegistryAccesses` set to nil. -/
theorem C15_admin_and_authorized_user_same_registries (security : SecurityPackage)
    (handler : Handler) (rAdmin rUser : Request)
    (contextAdmin contextUser : RestrictedRequestContext) (admin user : User)
    (endpoint : Endpoint) (registries : List Registry)
    (hreachAdmin : ReachesDispatch handler rAdmin contextAdmin admin endpoint registries)
    (hreachUser : ReachesDispatch handler rUser contextUser user endpoint registries)
    (htype : endpoint.Type_ = EndpointType.KubernetesLocalEnvironment ∨
      endpoint.Type_ = EndpointType.AgentOnKubernetesEnvironment ∨
      endpoint.Type_ = EndpointType.EdgeAgentOnKubernetesEnvironment)
    (hns : rAdmin.namespaceParam = rUser.namespaceParam)
    (hadmin : contextAdmin.IsAdmin = true) (hna : contextUser.IsAdmin = false)
    (hcheck : (isNamespaceAuthorized security handler endpoint rUser.namespaceParam user.ID
      contextUser.UserMemberships).2 = (true, none)) :
    ∃ outAdmin outUser,
      (endpointRegistriesList security handler rAdmin).result = .ok outAdmin ∧
      (endpointRegistriesList security handler rUser).result = .ok outUser ∧
      outAdmin.map (fun registry => registry.ID) = outUser.map (fun registry => registry.ID) ∧
      outUser = outAdmin.map (fun registry => { registry with RegistryAccesses := none }) ∧
      outAdmin = (filterRegistriesByNamespace registries endpoint.ID rUser.namespaceParam).map
        (fun registry => hideRegistryFields registry false) := by
  have hk := (isKubernetesEndpoint_iff endpoint).mpr htype
  have hresAdmin := (endpointRegistriesList_of_reaches security handler rAdmin contextAdmin
    admin endpoint registries hreachAdmin).1
  rw [listFor_admin security handler _ contextAdmin admin endpoint registries hadmin, hns]
    at hresAdmin
  simp only [hk, if_true] at hresAdmin
  have hresUser := (endpointRegistriesList_of_reaches security handler rUser contextUser
    user endpoint registries hreachUser).1
  rw [listFor_kubernetes_nonadmin security handler _ contextUser user endpoint registries
    hk hna, hcheck] at hresUser
  refine ⟨_, _, hresAdmin, hresUser, ?_, ?_, rfl⟩
  · simp only [hideAll, List.map_map]
    apply List.map_congr_left
    intro registry _
    rfl
  · simp only [hideAll, List.map_map]
    apply List.map_congr_left
    intro registry _
    rfl

/-- Witness for C15: the administrator and the authorized user 7 of the scenario, both
asking for `ns-a` on a Kubernetes endpoint. -/
theorem C15_admin_and_authorized_user_same_registries_witness :
    ∃ outAdmin outUser,
      (endpointRegistriesList specSecurity
          (sampleHandler EndpointType.KubernetesLocalEnvironment (.ok sampleClient))
          (sampleRequest true "ns-a")).result = .ok outAdmin ∧
      (endpointRegistriesList specSecurity
          (sampleHandler EndpointType.KubernetesLocalEnvironment (.ok sampleClient))
          (sampleRequest false "ns-a")).result = .ok outUser ∧
      outAdmin.map (fun registry => registry.ID) = outUser.map (fun registry => registry.ID) ∧
      outUser = outAdmin.map (fun registry => { registry with RegistryAccesses := none }) ∧
      outAdmin
        = (filterRegistriesByNamespace sampleRegistries
            (sampleEndpoint EndpointType.KubernetesLocalEnvironment).ID
            (sampleRequest false "ns-a").namespaceParam).map
          (fun registry => hideRegistryFields registry false) :=
  C15_admin_and_authorized_user_same_registries specSecurity
    (sampleHandler EndpointType.KubernetesLocalEnvironment (.ok sampleClient))
    (sampleRequest true "ns-a") (sampleRequest false "ns-a")
    (sampleContext true) (sampleContext false) sampleUser sampleUser
    (sampleEndpoint EndpointType.KubernetesLocalEnvironment) sampleRegistries
    ⟨rfl, rfl, ⟨5, rfl, rfl⟩, rfl⟩ ⟨rfl, rfl, ⟨5, rfl, rfl⟩, rfl⟩
    (Or.inl rfl) rfl rfl rfl rfl

end Portainer
